import Mathlib

/-!
Verification of the cost/ROI calculation engine `calculateInspectionROI`
(src/pages/index.js).  The engine is a pure function from business
parameters to cost, savings, break-even and TCO figures.  It is embedded
here over exact rational arithmetic (ℚ); JavaScript `Math.round` and
`toFixed(1)` are modelled as half-up rounding (`⌊x + 1/2⌋`), matching
ECMAScript semantics on exact values.
-/

namespace ROI

/-- The parameter object of `calculateInspectionROI`: user inputs plus the
fixed internal parameters (which are overridable defaulted arguments in
the source). -/
structure Params where
  personnelCount : ℚ
  salary : ℚ
  revenue : ℚ
  aiUnits : ℚ
  useOptics : Bool
  misdetectReduction : ℚ
  qualityDefectReduction : ℚ
  targetAiPersonnel : ℚ
  unitLicense : ℚ
  customDevCost : ℚ
  trainingRate : ℚ
  misdetectRate : ℚ
  qualityDefectRate : ℚ
  opticsCost : ℚ
  maintRate : ℚ

/-- The default parameter values of the source
(`DEFAULT_*` constants and the defaulted fixed internal parameters). -/
def defaultParams : Params where
  personnelCount := 3
  salary := 25000000
  revenue := 3000000000
  aiUnits := 2
  useOptics := true
  misdetectReduction := 8/10
  qualityDefectReduction := 9/10
  targetAiPersonnel := 1
  unitLicense := 15000000
  customDevCost := 100000000
  trainingRate := 1/10
  misdetectRate := 5/100
  qualityDefectRate := 5/100
  opticsCost := 40000000
  maintRate := 1/10

-- Step 1: current-state annual costs.

def laborCost (p : Params) : ℚ := p.personnelCount * p.salary

def trainingCost (p : Params) : ℚ := laborCost p * p.trainingRate

def misdetectCost (p : Params) : ℚ := p.revenue * p.misdetectRate

def qualityCost (p : Params) : ℚ := p.revenue * (p.qualityDefectRate / 2)

def defectCost (p : Params) : ℚ := p.revenue * (p.qualityDefectRate / 2)

def currentTotalOpCost (p : Params) : ℚ :=
  laborCost p + trainingCost p + misdetectCost p + qualityCost p + defectCost p

def currentTotalCostY1 (p : Params) : ℚ := currentTotalOpCost p

def currentTotalCostY2plus (p : Params) : ℚ := currentTotalOpCost p

-- Step 2: AI initial investment.

def opticsCostPerUnit (p : Params) : ℚ := if p.useOptics then p.opticsCost else 0

def aiUnitCost (p : Params) : ℚ := p.unitLicense + opticsCostPerUnit p

def aiTotalUnitCost (p : Params) : ℚ := p.aiUnits * aiUnitCost p

def initialInvestment (p : Params) : ℚ := aiTotalUnitCost p + p.customDevCost

-- Step 3: maintenance (from year 2).

def annualMaintenanceCost (p : Params) : ℚ := aiTotalUnitCost p * p.maintRate

-- Step 4: post-adoption annual costs.

def reducedLabor (p : Params) : ℚ := p.targetAiPersonnel * p.salary

def aiTrainingCost (p : Params) : ℚ := reducedLabor p * p.trainingRate

def reducedMisdetect (p : Params) : ℚ := misdetectCost p * (1 - p.misdetectReduction)

def reducedQualityDefectCost (p : Params) : ℚ :=
  (qualityCost p + defectCost p) * (1 - p.qualityDefectReduction)

def aiTotalAnnualOpCost (p : Params) : ℚ :=
  reducedLabor p + aiTrainingCost p + reducedMisdetect p + reducedQualityDefectCost p

def aiTotalAnnualCostY1 (p : Params) : ℚ := aiTotalAnnualOpCost p

def aiTotalAnnualCostY2plus (p : Params) : ℚ :=
  aiTotalAnnualOpCost p + annualMaintenanceCost p

-- Step 5: savings.

def annualSavingY1 (p : Params) : ℚ := currentTotalCostY1 p - aiTotalAnnualCostY1 p

def annualSavingY2plus (p : Params) : ℚ :=
  currentTotalCostY2plus p - aiTotalAnnualCostY2plus p

-- Step 6: ROI in years.  JavaScript `Infinity` is tagged explicitly.

/-- The value of the source's `roiYears` variable: a finite number of
years, or the explicit infinite tag used when savings never recoup the
investment. -/
inductive RoiYears where
  | finite (y : ℚ)
  | infinite
deriving DecidableEq

/-- The cascaded conditionals assigning `roiYears` in the source
(lines 128-140). -/
def roiYears (p : Params) : RoiYears :=
  if initialInvestment p ≤ 0 then .finite 0
  else if annualSavingY1 p ≤ 0 ∧ annualSavingY2plus p ≤ 0 then .infinite
  else if annualSavingY1 p ≥ initialInvestment p then
    .finite (initialInvestment p / annualSavingY1 p)
  else if 0 < annualSavingY2plus p then
    .finite (1 + (initialInvestment p - annualSavingY1 p) / annualSavingY2plus p)
  else .infinite

/-- JavaScript `Math.round`: nearest integer, ties toward +∞. -/
def jsRound (q : ℚ) : ℤ := ⌊q + 1/2⌋

/-- JavaScript `(+x.toFixed(1))`: rounding to one decimal place, ties
toward +∞ (ECMAScript `toFixed` picks the larger candidate on ties). -/
def round1 (q : ℚ) : ℚ := (jsRound (q * 10) : ℚ) / 10

/-- The display classification of the ROI figure (source lines 142-153):
immediate recovery, recovery within one year, recovery in a number of
years, or unrecoverable.  Numeric payloads carry the one-decimal
rounding applied by `toFixed(1)` in the display string. -/
inductive RoiDisplay where
  | immediate
  | withinOneYear (y : ℚ)
  | years (y : ℚ)
  | unrecoverable
deriving DecidableEq

/-- The source's `roiDisplay` assignment (lines 142-153). -/
def roiDisplay (p : Params) : RoiDisplay :=
  match roiYears p with
  | .finite y =>
      if y ≤ 0 then .immediate
      else if y ≤ 1 then .withinOneYear (round1 y)
      else .years (round1 y)
  | .infinite => .unrecoverable

-- Step 7: 5-year TCO.

def currentTCO5 (p : Params) : ℚ := currentTotalCostY1 p + currentTotalCostY2plus p * 4

def aiTCO5 (p : Params) : ℚ :=
  initialInvestment p + aiTotalAnnualCostY1 p + aiTotalAnnualCostY2plus p * 4

def tcoSaving (p : Params) : ℚ := currentTCO5 p - aiTCO5 p

def tcoSavingRate (p : Params) : ℚ :=
  if currentTCO5 p ≠ 0 then tcoSaving p / currentTCO5 p * 100 else 0

/-- The `tcoSaving` field of the returned object: the source applies
`Math.round` on return (line 230). -/
def tcoSavingField (p : Params) : ℤ := jsRound (tcoSaving p)

/-- The `tcoSavingRate` field of the returned object: the source applies
`+ tcoSavingRate.toFixed(1)` on return (line 231). -/
def tcoSavingRateField (p : Params) : ℚ := round1 (tcoSavingRate p)

-- Chart data: cumulative series and break-even scan (lines 176-195).

/-- The source's `annualAiOpEx` array: `aiTotalAnnualCostY1` in year 1
(index 0), `aiTotalAnnualCostY2plus` thereafter; the array has entries
for indices 0-4. -/
def annualAiOpEx (p : Params) (i : ℕ) : ℚ :=
  if i = 0 then aiTotalAnnualCostY1 p else aiTotalAnnualCostY2plus p

/-- The source's `cumulativeCurrentCosts` array: starts at 0 and adds the
constant `annualCurrentCosts[i] = currentTotalCostY1` each year. -/
def cumulativeCurrentCosts (p : Params) : ℕ → ℚ
  | 0 => 0
  | n + 1 => cumulativeCurrentCosts p n + currentTotalCostY1 p

/-- The source's `cumulativeAiCosts` array: starts at `initialInvestment`
and adds `annualAiOpEx[i]` each year. -/
def cumulativeAiCosts (p : Params) : ℕ → ℚ
  | 0 => initialInvestment p
  | n + 1 => cumulativeAiCosts p n + annualAiOpEx p n

/-- One iteration of the source's break-even scan loop: the index is set
to `i` the first time cumulative AI cost drops strictly below cumulative
current cost, and is never overwritten afterwards. -/
def breakEvenStep (p : Params) (acc : ℤ) (i : ℕ) : ℤ :=
  if acc = -1 ∧ cumulativeAiCosts p (i + 1) < cumulativeCurrentCosts p (i + 1) then i
  else acc

/-- The source's `breakEvenYearIndex`: the scan loop over years 0-4
starting from the sentinel -1. -/
def breakEvenYearIndex (p : Params) : ℤ :=
  [0, 1, 2, 3, 4].foldl (breakEvenStep p) (-1)

/-- The break-even condition of claim C3, stated analytically:
`initialInvestment` plus the sum of the first `i + 1` annual AI costs
(`aiTotalAnnualCostY1` for year 1, `aiTotalAnnualCostY2plus` thereafter)
is strictly less than `i + 1` times `currentTotalOpCost`. -/
def bePred (p : Params) (i : ℕ) : Prop :=
  initialInvestment p + (aiTotalAnnualCostY1 p + i * aiTotalAnnualCostY2plus p)
    < (i + 1) * currentTotalOpCost p

-- Spec-side definitions for refinement comparisons.

/-- The ROI case analysis exactly as the spec's Step 5 words it
(claim C1): written from the spec, to be compared with `roiYears`. -/
def roiYearsSpec (p : Params) : RoiYears :=
  if initialInvestment p ≤ 0 then .finite 0
  else if annualSavingY1 p ≤ 0 ∧ annualSavingY2plus p ≤ 0 then .infinite
  else if annualSavingY1 p ≥ initialInvestment p then
    .finite (initialInvestment p / annualSavingY1 p)
  else if annualSavingY2plus p > 0 then
    .finite (1 + (initialInvestment p - annualSavingY1 p) / annualSavingY2plus p)
  else .infinite

-- Checked-division variants (claim C4): each division the source
-- performs is replaced by one that reports failure on a zero
-- denominator, so agreement with the total versions states that no
-- division in the engine can produce NaN or an untagged infinity.

/-- `roiYears` with every division checked: evaluates to `none` if a
division with zero denominator would be reached. -/
def roiYearsChecked (p : Params) : Option RoiYears :=
  if initialInvestment p ≤ 0 then some (.finite 0)
  else if annualSavingY1 p ≤ 0 ∧ annualSavingY2plus p ≤ 0 then some .infinite
  else if annualSavingY1 p ≥ initialInvestment p then
    if annualSavingY1 p = 0 then none
    else some (.finite (initialInvestment p / annualSavingY1 p))
  else if 0 < annualSavingY2plus p then
    if annualSavingY2plus p = 0 then none
    else some (.finite (1 + (initialInvestment p - annualSavingY1 p) / annualSavingY2plus p))
  else some .infinite

/-- `tcoSavingRate` with its division checked: `none` if the guarded
division would divide by zero. -/
def tcoSavingRateChecked (p : Params) : Option ℚ :=
  if currentTCO5 p ≠ 0 then
    if currentTCO5 p = 0 then none else some (tcoSaving p / currentTCO5 p * 100)
  else some 0

-- Concrete parameter values used as counterexamples and witnesses.

/-- All-zero parameters: zero revenue, headcount, units and costs. -/
def pZero : Params where
  personnelCount := 0
  salary := 0
  revenue := 0
  aiUnits := 0
  useOptics := false
  misdetectReduction := 0
  qualityDefectReduction := 0
  targetAiPersonnel := 0
  unitLicense := 0
  customDevCost := 0
  trainingRate := 0
  misdetectRate := 0
  qualityDefectRate := 0
  opticsCost := 0
  maintRate := 0

/-- Positive investment but no savings: one licensed unit, no revenue
and no headcount change. -/
def pNoSaving : Params where
  personnelCount := 0
  salary := 0
  revenue := 0
  aiUnits := 1
  useOptics := false
  misdetectReduction := 0
  qualityDefectReduction := 0
  targetAiPersonnel := 0
  unitLicense := 1
  customDevCost := 0
  trainingRate := 0
  misdetectRate := 0
  qualityDefectRate := 0
  opticsCost := 0
  maintRate := 0

/-- Parameters making the raw 5-year TCO saving a non-integer (11/2):
one worker at salary 1 with a 10% training surcharge, and a free AI
system. -/
def pHalf : Params where
  personnelCount := 1
  salary := 1
  revenue := 0
  aiUnits := 0
  useOptics := false
  misdetectReduction := 0
  qualityDefectReduction := 0
  targetAiPersonnel := 0
  unitLicense := 0
  customDevCost := 0
  trainingRate := 1/10
  misdetectRate := 0
  qualityDefectRate := 0
  opticsCost := 0
  maintRate := 0

-- Theorems.

/-- C1: for every input, the `roiYears` figure follows the spec's case
analysis exactly: `initialInvestment ≤ 0` gives 0; otherwise both
savings nonpositive gives unrecoverable; otherwise
`annualSavingY1 ≥ initialInvestment` gives
`initialInvestment / annualSavingY1`; otherwise `annualSavingY2plus > 0`
gives `1 + (initialInvestment - annualSavingY1) / annualSavingY2plus`;
otherwise unrecoverable. -/
theorem roiYears_follows_spec_cases (p : Params) : roiYears p = roiYearsSpec p := rfl

/-- C10: for every input, the two savings figures differ by exactly the
annual maintenance cost. -/
theorem annualSaving_diff_eq_maintenance (p : Params) :
    annualSavingY1 p - annualSavingY2plus p = annualMaintenanceCost p := by
  unfold annualSavingY1 annualSavingY2plus currentTotalCostY1 currentTotalCostY2plus
    aiTotalAnnualCostY1 aiTotalAnnualCostY2plus
  ring

/-- C2, counterexample: with all-zero parameters both savings are
nonpositive, yet the ROI classification is "immediate", not
"unrecoverable", because the `initialInvestment <= 0` branch is tested
first. -/
theorem nonpos_savings_not_unrecoverable :
    annualSavingY1 pZero ≤ 0 ∧ annualSavingY2plus pZero ≤ 0 ∧
      roiDisplay pZero = RoiDisplay.immediate ∧
      roiDisplay pZero ≠ RoiDisplay.unrecoverable := by
  have h1 : annualSavingY1 pZero = 0 := by
    norm_num [annualSavingY1, currentTotalCostY1, currentTotalOpCost, laborCost,
      trainingCost, misdetectCost, qualityCost, defectCost, aiTotalAnnualCostY1,
      aiTotalAnnualOpCost, reducedLabor, aiTrainingCost, reducedMisdetect,
      reducedQualityDefectCost, pZero]
  have h2 : annualSavingY2plus pZero = 0 := by
    norm_num [annualSavingY2plus, currentTotalCostY2plus, currentTotalOpCost, laborCost,
      trainingCost, misdetectCost, qualityCost, defectCost, aiTotalAnnualCostY2plus,
      aiTotalAnnualOpCost, reducedLabor, aiTrainingCost, reducedMisdetect,
      reducedQualityDefectCost, annualMaintenanceCost, aiTotalUnitCost, aiUnitCost,
      opticsCostPerUnit, pZero]
  have hI : initialInvestment pZero = 0 := by
    norm_num [initialInvestment, aiTotalUnitCost, aiUnitCost, opticsCostPerUnit, pZero]
  have hr : roiYears pZero = RoiYears.finite 0 := by
    unfold roiYears
    rw [hI]
    simp
  have hd : roiDisplay pZero = RoiDisplay.immediate := by
    unfold roiDisplay
    rw [hr]
    simp
  exact ⟨le_of_eq h1, le_of_eq h2, hd, by rw [hd]; simp⟩

/-- C2, amended: for every input with a strictly positive initial
investment, nonpositive `annualSavingY1` and nonpositive
`annualSavingY2plus` make the ROI classification "unrecoverable". -/
theorem roi_unrecoverable_of_nonpos_savings (p : Params)
    (hI : 0 < initialInvestment p) (h1 : annualSavingY1 p ≤ 0)
    (h2 : annualSavingY2plus p ≤ 0) :
    roiDisplay p = RoiDisplay.unrecoverable := by
  have hr : roiYears p = RoiYears.infinite := by
    unfold roiYears
    rw [if_neg (not_le.mpr hI), if_pos ⟨h1, h2⟩]
  unfold roiDisplay
  rw [hr]

/-- C2, witness: the amended statement applied to the concrete
parameters with one licensed unit and no revenue. -/
theorem roi_unrecoverable_of_nonpos_savings_witness :
    0 < initialInvestment pNoSaving ∧ annualSavingY1 pNoSaving ≤ 0 ∧
      annualSavingY2plus pNoSaving ≤ 0 ∧
      roiDisplay pNoSaving = RoiDisplay.unrecoverable := by
  have hI : 0 < initialInvestment pNoSaving := by
    norm_num [initialInvestment, aiTotalUnitCost, aiUnitCost, opticsCostPerUnit,
      pNoSaving]
  have h1 : annualSavingY1 pNoSaving ≤ 0 := by
    norm_num [annualSavingY1, currentTotalCostY1, currentTotalOpCost, laborCost,
      trainingCost, misdetectCost, qualityCost, defectCost, aiTotalAnnualCostY1,
      aiTotalAnnualOpCost, reducedLabor, aiTrainingCost, reducedMisdetect,
      reducedQualityDefectCost, pNoSaving]
  have h2 : annualSavingY2plus pNoSaving ≤ 0 := by
    norm_num [annualSavingY2plus, currentTotalCostY2plus, currentTotalOpCost, laborCost,
      trainingCost, misdetectCost, qualityCost, defectCost, aiTotalAnnualCostY2plus,
      aiTotalAnnualOpCost, reducedLabor, aiTrainingCost, reducedMisdetect,
      reducedQualityDefectCost, annualMaintenanceCost, aiTotalUnitCost, aiUnitCost,
      opticsCostPerUnit, pNoSaving]
  exact ⟨hI, h1, h2, roi_unrecoverable_of_nonpos_savings pNoSaving hI h1 h2⟩

/-- C4: no division the engine performs can fail: the checked-division
variants, which report `none` whenever a zero denominator would be
reached, agree with the total functions on every input, and the
non-recoverable case is the explicit `infinite` tag rather than a
propagated error value. -/
theorem divisions_never_fail (p : Params) :
    roiYearsChecked p = some (roiYears p) ∧
      tcoSavingRateChecked p = some (tcoSavingRate p) := by
  constructor
  · unfold roiYearsChecked roiYears
    by_cases h1 : initialInvestment p ≤ 0
    · simp [h1]
    · rw [if_neg h1, if_neg h1]
      by_cases h2 : annualSavingY1 p ≤ 0 ∧ annualSavingY2plus p ≤ 0
      · simp [h2]
      · rw [if_neg h2, if_neg h2]
        by_cases h3 : annualSavingY1 p ≥ initialInvestment p
        · have hy : annualSavingY1 p ≠ 0 :=
            ne_of_gt (lt_of_lt_of_le (not_le.mp h1) h3)
          rw [if_pos h3, if_pos h3, if_neg hy]
        · rw [if_neg h3, if_neg h3]
          by_cases h4 : 0 < annualSavingY2plus p
          · rw [if_pos h4, if_pos h4, if_neg (ne_of_gt h4)]
          · rw [if_neg h4, if_neg h4]
  · unfold tcoSavingRateChecked tcoSavingRate
    by_cases h : currentTCO5 p = 0
    · simp [h]
    · simp [h]

/-- C5, counterexample: at `pHalf` the raw 5-year TCO saving is 11/2,
but the returned `tcoSaving` field is `Math.round(11/2) = 6`, so the
field does not equal `currentTCO5 - aiTCO5`. -/
theorem tcoSavingField_not_raw_difference :
    (tcoSavingField pHalf : ℚ) ≠ currentTCO5 pHalf - aiTCO5 pHalf := by
  norm_num [tcoSavingField, jsRound, tcoSaving, currentTCO5, aiTCO5,
    currentTotalCostY1, currentTotalCostY2plus, currentTotalOpCost, laborCost,
    trainingCost, misdetectCost, qualityCost, defectCost, initialInvestment,
    aiTotalUnitCost, aiUnitCost, opticsCostPerUnit, aiTotalAnnualCostY1,
    aiTotalAnnualCostY2plus, aiTotalAnnualOpCost, reducedLabor, aiTrainingCost,
    reducedMisdetect, reducedQualityDefectCost, annualMaintenanceCost, pHalf]

/-- C5, amended: for every input, the `tcoSaving` field of the result
equals `currentTCO5 - aiTCO5` rounded to the nearest integer
(`Math.round`, ties toward +∞). -/
theorem tcoSavingField_eq_round_difference (p : Params) :
    tcoSavingField p = jsRound (currentTCO5 p - aiTCO5 p) := rfl

/-- C6: the `tcoSavingRate` field equals `(tcoSaving / currentTCO5) * 100`
rounded to one decimal place when `currentTCO5 ≠ 0`, and exactly 0 when
`currentTCO5 = 0`; the division is reached only under the nonzero
guard. -/
theorem tcoSavingRateField_guarded (p : Params) :
    tcoSavingRateField p =
      if currentTCO5 p ≠ 0 then round1 (tcoSaving p / currentTCO5 p * 100) else 0 := by
  unfold tcoSavingRateField tcoSavingRate
  by_cases h : currentTCO5 p = 0
  · simp only [h, ne_eq, not_true_eq_false, if_false]
    norm_num [round1, jsRound]
  · simp only [h, ne_eq, not_false_eq_true, if_true]

/-- C7: the concrete scenario of the spec (the default parameters:
3 workers at 25,000,000, revenue 3,000,000,000, 2 units with new optics,
80%/90% reductions, 1 remaining worker) yields labor cost 75,000,000,
initial investment 210,000,000 and annual maintenance 11,000,000. -/
theorem concrete_default_scenario :
    laborCost defaultParams = 75000000 ∧
      initialInvestment defaultParams = 210000000 ∧
      annualMaintenanceCost defaultParams = 11000000 := by
  refine ⟨?_, ?_, ?_⟩ <;>
    norm_num [laborCost, initialInvestment, annualMaintenanceCost, aiTotalUnitCost,
      aiUnitCost, opticsCostPerUnit, defaultParams]

/-- C8: with salary and training rate nonnegative, `annualSavingY1` is
monotonically non-increasing in `targetAiPersonnel`: of two inputs that
agree everywhere else, the one with the smaller target headcount has the
greater (or equal) year-1 saving. -/
theorem annualSavingY1_antitone_in_target (p : Params) (t₁ t₂ : ℚ)
    (hs : 0 ≤ p.salary) (ht : 0 ≤ p.trainingRate) (h : t₁ ≤ t₂) :
    annualSavingY1 { p with targetAiPersonnel := t₂ } ≤
      annualSavingY1 { p with targetAiPersonnel := t₁ } := by
  simp only [annualSavingY1, currentTotalCostY1, currentTotalOpCost, laborCost,
    trainingCost, misdetectCost, qualityCost, defectCost, aiTotalAnnualCostY1,
    aiTotalAnnualOpCost, reducedLabor, aiTrainingCost, reducedMisdetect,
    reducedQualityDefectCost]
  nlinarith [mul_nonneg (mul_nonneg (sub_nonneg.mpr h) hs)
    (by linarith : (0 : ℚ) ≤ 1 + p.trainingRate)]

/-- C8, witness: the monotonicity theorem applied to the default
parameters with target headcounts 0 and 1. -/
theorem annualSavingY1_antitone_in_target_witness :
    0 ≤ defaultParams.salary ∧ 0 ≤ defaultParams.trainingRate ∧ (0 : ℚ) ≤ 1 ∧
      annualSavingY1 { defaultParams with targetAiPersonnel := 1 } ≤
        annualSavingY1 { defaultParams with targetAiPersonnel := 0 } := by
  have hs : 0 ≤ defaultParams.salary := by norm_num [defaultParams]
  have ht : 0 ≤ defaultParams.trainingRate := by norm_num [defaultParams]
  have h01 : (0 : ℚ) ≤ 1 := by norm_num
  exact ⟨hs, ht, h01, annualSavingY1_antitone_in_target defaultParams 0 1 hs ht h01⟩

/-- The cumulative current-cost series is an arithmetic progression:
after `n` years it holds `n` copies of the constant annual current
cost. -/
theorem cumulativeCurrentCosts_closed (p : Params) (n : ℕ) :
    cumulativeCurrentCosts p n = n * currentTotalCostY1 p := by
  induction n with
  | zero => simp [cumulativeCurrentCosts]
  | succ n ih =>
      rw [cumulativeCurrentCosts, ih]
      push_cast
      ring

/-- The cumulative AI-cost series after `n + 1` years: the initial
investment, one year-1 operating cost, and `n` year-2+ costs. -/
theorem cumulativeAiCosts_closed (p : Params) (n : ℕ) :
    cumulativeAiCosts p (n + 1) =
      initialInvestment p + aiTotalAnnualCostY1 p + n * aiTotalAnnualCostY2plus p := by
  induction n with
  | zero => simp [cumulativeAiCosts, annualAiOpEx]
  | succ n ih =>
      rw [cumulativeAiCosts, ih]
      simp only [annualAiOpEx, Nat.succ_ne_zero, if_false]
      push_cast
      ring

/-- C9: the analytic 5-year TCO figures agree with the scanned
cumulative series: `aiTCO5` is the final (year-5) element of the
cumulative AI series and `currentTCO5` is the final element of the
cumulative current series. -/
theorem tco5_agrees_with_cumulative_series (p : Params) :
    aiTCO5 p = cumulativeAiCosts p 5 ∧ currentTCO5 p = cumulativeCurrentCosts p 5 := by
  constructor
  · rw [show (5 : ℕ) = 4 + 1 from rfl, cumulativeAiCosts_closed]
    unfold aiTCO5
    push_cast
    ring
  · rw [cumulativeCurrentCosts_closed]
    unfold currentTCO5 currentTotalCostY2plus currentTotalCostY1
    push_cast
    ring

/-- The analytic break-even condition of claim C3 coincides with the
comparison the scan loop makes at year `i`: cumulative AI cost after
year `i + 1` strictly below cumulative current cost. -/
theorem bePred_iff_cum (p : Params) (i : ℕ) :
    bePred p i ↔ cumulativeAiCosts p (i + 1) < cumulativeCurrentCosts p (i + 1) := by
  rw [cumulativeAiCosts_closed, cumulativeCurrentCosts_closed]
  unfold bePred currentTotalCostY1
  push_cast
  constructor <;> intro h <;> linarith

/-- Once the scan has recorded a break-even year, later iterations never
overwrite it. -/
theorem breakEvenStep_of_found (p : Params) (k : ℤ) (i : ℕ) (h : k ≠ -1) :
    breakEvenStep p k i = k := by
  unfold breakEvenStep
  rw [if_neg]
  rintro ⟨hk, -⟩
  exact h hk

/-- While no break-even year has been found, an iteration whose
comparison fails leaves the sentinel -1 in place. -/
theorem breakEvenStep_not_found (p : Params) (i : ℕ) (h : ¬ bePred p i) :
    breakEvenStep p (-1) i = -1 := by
  unfold breakEvenStep
  rw [if_neg]
  rintro ⟨-, hc⟩
  exact h ((bePred_iff_cum p i).mpr hc)

/-- While no break-even year has been found, an iteration whose
comparison succeeds records the current year index. -/
theorem breakEvenStep_found (p : Params) (i : ℕ) (h : bePred p i) :
    breakEvenStep p (-1) i = i := by
  unfold breakEvenStep
  rw [if_pos ⟨rfl, (bePred_iff_cum p i).mp h⟩]

/-- C3: the break-even year index is the smallest `i < 5` at which the
initial investment plus the first `i + 1` annual AI costs drops strictly
below `i + 1` times the current annual operating cost, and is the
sentinel -1 ("none") when no year within the 5-year horizon satisfies
this. -/
theorem breakEvenYearIndex_least (p : Params) :
    (breakEvenYearIndex p = -1 ∧ ∀ i < 5, ¬ bePred p i) ∨
      ∃ i : ℕ, i < 5 ∧ breakEvenYearIndex p = i ∧ bePred p i ∧ ∀ j < i, ¬ bePred p j := by
  unfold breakEvenYearIndex
  simp only [List.foldl_cons, List.foldl_nil]
  by_cases h0 : bePred p 0
  · right
    refine ⟨0, by norm_num, ?_, h0, fun j hj => absurd hj (Nat.not_lt_zero j)⟩
    rw [breakEvenStep_found p 0 h0]
    push_cast
    rw [breakEvenStep_of_found p 0 1 (by norm_num),
      breakEvenStep_of_found p 0 2 (by norm_num),
      breakEvenStep_of_found p 0 3 (by norm_num),
      breakEvenStep_of_found p 0 4 (by norm_num)]
  · rw [breakEvenStep_not_found p 0 h0]
    by_cases h1 : bePred p 1
    · right
      refine ⟨1, by norm_num, ?_, h1, ?_⟩
      · rw [breakEvenStep_found p 1 h1]
        push_cast
        rw [breakEvenStep_of_found p 1 2 (by norm_num),
          breakEvenStep_of_found p 1 3 (by norm_num),
          breakEvenStep_of_found p 1 4 (by norm_num)]
      · intro j hj
        interval_cases j
        exact h0
    · rw [breakEvenStep_not_found p 1 h1]
      by_cases h2 : bePred p 2
      · right
        refine ⟨2, by norm_num, ?_, h2, ?_⟩
        · rw [breakEvenStep_found p 2 h2]
          push_cast
          rw [breakEvenStep_of_found p 2 3 (by norm_num),
            breakEvenStep_of_found p 2 4 (by norm_num)]
        · intro j hj
          interval_cases j
          · exact h0
          · exact h1
      · rw [breakEvenStep_not_found p 2 h2]
        by_cases h3 : bePred p 3
        · right
          refine ⟨3, by norm_num, ?_, h3, ?_⟩
          · rw [breakEvenStep_found p 3 h3]
            push_cast
            rw [breakEvenStep_of_found p 3 4 (by norm_num)]
          · intro j hj
            interval_cases j
            · exact h0
            · exact h1
            · exact h2
        · rw [breakEvenStep_not_found p 3 h3]
          by_cases h4 : bePred p 4
          · right
            refine ⟨4, by norm_num, ?_, h4, ?_⟩
            · rw [breakEvenStep_found p 4 h4]
            · intro j hj
              interval_cases j
              · exact h0
              · exact h1
              · exact h2
              · exact h3
          · rw [breakEvenStep_not_found p 4 h4]
            left
            refine ⟨rfl, ?_⟩
            intro i hi
            interval_cases i <;> assumption
